import Mathlib

/-!
Shallow embedding of `src/fetch_tables.py` (Census ACS Subject-table
fetcher).  Python runtime values that flow through the pipeline are
modelled by `PyVal`; Python `float`s are modelled as exact rationals
(every string the claims exercise parses to a value for which the
IEEE-double computation and the exact-rational computation agree on the
comparisons the code makes); dicts are modelled as association lists
with Python's insert-or-update semantics.
-/

set_option maxRecDepth 2000

unseal Rat.add Rat.mul Rat.inv Rat.sub

namespace FetchTables

/-- A Python runtime value as it appears in this pipeline: `None`, an
`int`, a `float` (modelled as an exact rational), or a `str`. -/
inductive PyVal where
  | none
  | int (n : ℤ)
  | float (q : ℚ)
  | str (s : String)
  deriving DecidableEq, Repr

/-- `SUPPRESS_CODES` from the source (a Python `set` of eight strings). -/
def SUPPRESS_CODES : List String :=
  ["-555555555", "-555555555.0",
   "-888888888", "-888888888.0",
   "-666666666", "-666666666.0",
   "-222222222", "-222222222.0"]

/-- `ANNOTATION_TOKENS` from the source. -/
def ANNOTATION_TOKENS : List String := ["", "(X)", "*****", "-", "**"]

/-- String order decided through the character lists (Python compares
strings by code points), so that concrete comparisons evaluate. -/
instance strLtDec (a b : String) : Decidable (a < b) :=
  decidable_of_iff (a.toList < b.toList) String.lt_iff_toList_lt.symm

/-- String ≤ decided through the character lists. -/
instance strLeDec (a b : String) : Decidable (a ≤ b) :=
  decidable_of_iff (a.toList ≤ b.toList) String.le_iff_toList_le.symm

/-- Python `str.strip()`: remove leading and trailing whitespace. -/
def pyStrip (s : String) : String :=
  String.mk (((s.toList.dropWhile Char.isWhitespace).reverse.dropWhile
    Char.isWhitespace).reverse)

/-- Python numeric literals allow an underscore only between two digits.
`remUnderscores prev cs` removes such underscores and rejects (with
`Option.none`) a misplaced one; `prev` is the previously seen character. -/
def remUnderscores : Option Char → List Char → Option (List Char)
  | _, [] => some []
  | prev, c :: rest =>
    if c = '_' then
      match prev, rest with
      | some p, d :: _ =>
        if p.isDigit && d.isDigit then remUnderscores (some c) rest
        else Option.none
      | _, _ => Option.none
    else
      (remUnderscores (some c) rest).map (fun l => c :: l)

/-- Value of a list of decimal digit characters. -/
def digitsToNat (ds : List Char) : ℕ :=
  ds.foldl (fun n c => 10 * n + (c.toNat - 48)) 0

/-- Strip an optional leading sign; `true` means negative. -/
def splitSign : List Char → Bool × List Char
  | '-' :: r => (true, r)
  | '+' :: r => (false, r)
  | l => (false, l)

/-- Parse the optional exponent suffix of a float literal and combine it
with the already-parsed integer part `ip` and fraction part `fp`. -/
def parseExp (ip fp : List Char) (rest : List Char) : Option ℚ :=
  let mant : ℚ := (digitsToNat ip : ℚ) + (digitsToNat fp : ℚ) / (10 : ℚ) ^ fp.length
  match rest with
  | [] => some mant
  | c :: r1 =>
    if c = 'e' || c = 'E' then
      let (eneg, r2) := splitSign r1
      let (ed, r3) := r2.span Char.isDigit
      if ed.isEmpty || !r3.isEmpty then Option.none
      else some (if eneg then mant / (10 : ℚ) ^ digitsToNat ed
                 else mant * (10 : ℚ) ^ digitsToNat ed)
    else Option.none

/-- Parse the unsigned body of a Python float literal:
`digits [. digits] | . digits`, optionally followed by an exponent. -/
def parseBody (cs : List Char) : Option ℚ :=
  let (ip, r1) := cs.span Char.isDigit
  match r1 with
  | '.' :: r2 =>
    let (fp, r3) := r2.span Char.isDigit
    if ip.isEmpty && fp.isEmpty then Option.none
    else parseExp ip fp r3
  | _ =>
    if ip.isEmpty then Option.none else parseExp ip [] r1

/-- Python `float(s)` on an already-stripped string, restricted to finite
results and modelled as an exact rational.  The source also accepts
"inf"/"infinity"/"nan" (any case, optional sign); for those `int(v)`
inside `clean_num`'s `try` block raises, so the enclosing handler yields
`None` — the same outcome as a parse failure, which is how they are
modelled here. -/
def pyFloatFinite (s : String) : Option ℚ :=
  match remUnderscores Option.none s.toList with
  | Option.none => Option.none
  | some cs =>
    let (neg, body) := splitSign cs
    match parseBody body with
    | Option.none => Option.none
    | some q => some (if neg then -q else q)

/-- Python `int(v)` on a finite float: truncation toward zero. -/
def pyTruncInt (q : ℚ) : ℤ := q.num.tdiv q.den

/-- `clean_num` from the source: `None` for null input, suppression
codes, annotation tokens and parse failures; otherwise the parsed number,
collapsed to an `int` when within `1e-9` of its truncation. -/
def clean_num (x : Option String) : PyVal :=
  match x with
  | Option.none => .none
  | some raw =>
    let s := pyStrip raw
    if SUPPRESS_CODES.contains s || ANNOTATION_TOKENS.contains s then .none
    else
      match pyFloatFinite s with
      | Option.none => .none
      | some v =>
        if |v - (pyTruncInt v : ℚ)| < 1 / 1000000000 then .int (pyTruncInt v)
        else .float v

/-- Match one header against the pattern from the source,
`^(<table>)_C(\d{2})_(\d{3})([EM])$` (the table id is `re.escape`d, so it
is matched literally), returning the captured (group, line, kind).
`\d` is modelled as an ASCII digit. -/
def matchHeader (table : String) (h : String) : Option (String × String × String) :=
  let tcs := table.toList
  let hcs := h.toList
  if hcs.take tcs.length = tcs then
    match hcs.drop tcs.length with
    | '_' :: 'C' :: g1 :: g2 :: '_' :: l1 :: l2 :: l3 :: k :: [] =>
      if g1.isDigit && g2.isDigit && l1.isDigit && l2.isDigit && l3.isDigit
          && (k = 'E' || k = 'M') then
        some (String.mk [g1, g2], String.mk [l1, l2, l3], String.mk [k])
      else Option.none
    | _ => Option.none
  else Option.none

/-- Python dict assignment `m[k] = v`: update in place when the key is
present (keeping insertion order), otherwise append. -/
def dictSet {α β : Type} [DecidableEq α] : List (α × β) → α → β → List (α × β)
  | [], k, v => [(k, v)]
  | (k0, v0) :: rest, k, v =>
    if k0 = k then (k0, v) :: rest else (k0, v0) :: dictSet rest k v

/-- Python `m.get(k)` on an insertion-ordered dict. -/
def dictGet {α β : Type} [DecidableEq α] : List (α × β) → α → Option β
  | [], _ => Option.none
  | (k0, v0) :: rest, k => if k0 = k then some v0 else dictGet rest k

/-- `parse_headers_for_table`: scan the headers in order, entering each
matching one into the field map keyed by (group, line, kind). -/
def parse_headers_for_table (table : String) (headers : List String) :
    List ((String × String × String) × ℕ) :=
  (headers.enum).foldl
    (fun m p =>
      match matchHeader table p.2 with
      | some key => dictSet m key p.1
      | Option.none => m) []

/-- Row cell access `row[i]`.  Cells are `Option String` (JSON cells may
be null).  An out-of-range index raises `IndexError` in the source; no
pipeline caller reaches that case (headers and rows have equal length per
the API contract), and it is modelled as a null cell. -/
def cell (row : List (Option String)) (i : ℕ) : Option String :=
  (row.get? i).getD Option.none

/-- `row_ids`: extract GEO_ID and NAME via `headers.index`, which finds
the first occurrence; a missing header yields null. -/
def row_ids (headers : List String) (row : List (Option String)) :
    Option String × Option String :=
  let gi := headers.findIdx? (fun h => h == "GEO_ID")
  let ni := headers.findIdx? (fun h => h == "NAME")
  (match gi with | some i => cell row i | Option.none => Option.none,
   match ni with | some i => cell row i | Option.none => Option.none)

/-- The value-getter closure from `build_records_for_row`:
`getv(group, kind, ln)` looks up the column for `(group, ln, kind)` and
cleans that cell, or returns `None` when the coordinate is absent. -/
def getv (fieldmap : List ((String × String × String) × ℕ))
    (row : List (Option String)) (group kind ln : String) : PyVal :=
  match dictGet fieldmap (group, ln, kind) with
  | some col => clean_num (cell row col)
  | Option.none => .none

/-- `DEFAULT_FIELDNAMES` from the source. -/
def DEFAULT_FIELDNAMES : List String :=
  ["GEO_ID", "NAME", "line_no", "label",
   "total", "total_moe", "total_pct", "total_pct_moe",
   "male", "male_moe", "male_pct", "male_pct_moe",
   "female", "female_moe", "female_pct", "female_pct_moe"]

/-- An optional identifier cell as a `PyVal`. -/
def optStr : Option String → PyVal
  | some s => .str s
  | Option.none => .none

/-- `default_builder`: the standard S-table convention, groups 01-06,
kinds E and M. -/
def default_builder (geo_id name : Option String) (ln : String)
    (g : String → String → String → PyVal) : List (String × PyVal) :=
  [("GEO_ID", optStr geo_id), ("NAME", optStr name), ("line_no", .str ln),
   ("total", g "01" "E" ln), ("total_moe", g "01" "M" ln),
   ("total_pct", g "02" "E" ln), ("total_pct_moe", g "02" "M" ln),
   ("male", g "03" "E" ln), ("male_moe", g "03" "M" ln),
   ("male_pct", g "04" "E" ln), ("male_pct_moe", g "04" "M" ln),
   ("female", g "05" "E" ln), ("female_moe", g "05" "M" ln),
   ("female_pct", g "06" "E" ln), ("female_pct_moe", g "06" "M" ln)]

/-- A table schema: an output field-name list plus a record builder. -/
structure TableSchema where
  fieldnames : List String
  builder : Option String → Option String → String →
    (String → String → String → PyVal) → List (String × PyVal)

/-- `TABLE_SCHEMAS` from the source: the six custom registry entries. -/
def TABLE_SCHEMAS : List (String × TableSchema) :=
  [("S1701",
    { fieldnames :=
        ["GEO_ID", "NAME", "line_no", "label",
         "total", "total_moe",
         "below_pl", "below_pl_moe",
         "below_pl_pct", "below_pl_pct_moe"],
      builder := fun geo_id name ln g =>
        [("GEO_ID", optStr geo_id), ("NAME", optStr name), ("line_no", .str ln),
         ("total", g "01" "E" ln), ("total_moe", g "01" "M" ln),
         ("below_pl", g "02" "E" ln), ("below_pl_moe", g "02" "M" ln),
         ("below_pl_pct", g "03" "E" ln), ("below_pl_pct_moe", g "03" "M" ln)] }),
   ("S1901",
    { fieldnames :=
        ["GEO_ID", "NAME", "line_no", "label",
         "households", "households_moe",
         "families", "families_moe",
         "mc_families", "mc_families_moe",
         "nf_households", "nf_households_moe"],
      builder := fun geo_id name ln g =>
        [("GEO_ID", optStr geo_id), ("NAME", optStr name), ("line_no", .str ln),
         ("households", g "01" "E" ln), ("households_moe", g "01" "M" ln),
         ("families", g "02" "E" ln), ("families_moe", g "02" "M" ln),
         ("mc_families", g "03" "E" ln), ("mc_families_moe", g "03" "M" ln),
         ("nf_households", g "04" "E" ln), ("nf_households_moe", g "04" "M" ln)] }),
   ("S2301",
    { fieldnames :=
        ["GEO_ID", "NAME", "line_no", "label",
         "total", "total_moe",
         "lfp_rate", "lfp_rate_moe",
         "ep_ratio", "ep_ratio_moe",
         "unemployment_rate", "unemployment_rate_moe"],
      builder := fun geo_id name ln g =>
        [("GEO_ID", optStr geo_id), ("NAME", optStr name), ("line_no", .str ln),
         ("total", g "01" "E" ln), ("total_moe", g "01" "M" ln),
         ("lfp_rate", g "02" "E" ln), ("lfp_rate_moe", g "02" "M" ln),
         ("ep_ratio", g "03" "E" ln), ("ep_ratio_moe", g "03" "M" ln),
         ("unemployment_rate", g "04" "E" ln),
         ("unemployment_rate_moe", g "04" "M" ln)] }),
   ("S2502",
    { fieldnames :=
        ["GEO_ID", "NAME", "line_no", "label",
         "oc_units", "oc_units_moe",
         "oc_units_pct", "oc_units_pct_moe",
         "ooh_units", "ooh_units_moe",
         "ooh_units_pct", "ooh_units_pct_moe",
         "roh_units", "roh_units_moe",
         "roh_units_pct", "roh_units_pct_moe"],
      builder := fun geo_id name ln g =>
        [("GEO_ID", optStr geo_id), ("NAME", optStr name), ("line_no", .str ln),
         ("oc_units", g "01" "E" ln), ("oc_units_moe", g "01" "M" ln),
         ("oc_units_pct", g "02" "E" ln), ("oc_units_pct_moe", g "02" "M" ln),
         ("ooh_units", g "03" "E" ln), ("ooh_units_moe", g "03" "M" ln),
         ("ooh_units_pct", g "04" "E" ln), ("ooh_units_pct_moe", g "04" "M" ln),
         ("roh_units", g "05" "E" ln), ("roh_units_moe", g "05" "M" ln),
         ("roh_units_pct", g "06" "E" ln), ("roh_units_pct_moe", g "06" "M" ln)] }),
   ("S2701",
    { fieldnames :=
        ["GEO_ID", "NAME", "line_no", "label", "total", "total_moe",
         "insured", "insured_moe", "insured_pct", "insured_pct_moe",
         "uninsured", "uninsured_moe", "uninsured_pct", "uninsured_pct_moe"],
      builder := fun geo_id name ln g =>
        [("GEO_ID", optStr geo_id), ("NAME", optStr name), ("line_no", .str ln),
         ("total", g "01" "E" ln), ("total_moe", g "01" "M" ln),
         ("insured", g "02" "E" ln), ("insured_moe", g "02" "M" ln),
         ("insured_pct", g "03" "E" ln), ("insured_pct_moe", g "03" "M" ln),
         ("uninsured", g "04" "E" ln), ("uninsured_moe", g "04" "M" ln),
         ("uninsured_pct", g "05" "E" ln),
         ("uninsured_pct_moe", g "05" "M" ln)] }),
   ("S2801",
    { fieldnames :=
        ["GEO_ID", "NAME", "line_no", "label",
         "total", "total_moe",
         "total_pct", "total_pct_moe"],
      builder := fun geo_id name ln g =>
        [("GEO_ID", optStr geo_id), ("NAME", optStr name), ("line_no", .str ln),
         ("total", g "01" "E" ln), ("total_moe", g "01" "M" ln),
         ("total_pct", g "02" "E" ln), ("total_pct_moe", g "02" "M" ln)] })]

/-- Schema lookup with the default fallback, as in the `if schema` branch
of `build_records_for_row`. -/
def resolveSchema (table : String) : TableSchema :=
  match dictGet TABLE_SCHEMAS table with
  | some s => s
  | Option.none => ⟨DEFAULT_FIELDNAMES, default_builder⟩

/-- `sorted({ln for (_, ln, _) in fieldmap.keys()})`: the distinct line
numbers present in the field map, in ascending string order (a stable
structural sort models Python's `sorted`). -/
def discoveredLines (fieldmap : List ((String × String × String) × ℕ)) :
    List String :=
  List.insertionSort (fun a b => a ≤ b) ((fieldmap.map (fun e => e.1.2.1)).dedup)

/-- The identifier field names excluded by the keep filter. -/
def IDENT_KEYS : List String := ["GEO_ID", "NAME", "line_no", "label"]

/-- The keep filter from `build_records_for_row`: at least one
non-identifier field is non-null. -/
def keepRecord (r : List (String × PyVal)) : Bool :=
  r.any (fun kv => decide (kv.1 ∉ IDENT_KEYS ∧ kv.2 ≠ PyVal.none))

/-- `build_records_for_row`: one candidate record per discovered line
number, kept when it passes the keep filter; also returns the resolved
schema's field names. -/
def build_records_for_row (table : String) (headers : List String)
    (row : List (Option String)) :
    List (List (String × PyVal)) × List String :=
  let ids := row_ids headers row
  let fieldmap := parse_headers_for_table table headers
  let line_nos := discoveredLines fieldmap
  let s := resolveSchema table
  let records := line_nos.foldl
    (fun acc ln =>
      let r := s.builder ids.1 ids.2 ln (getv fieldmap row)
      if keepRecord r then acc ++ [r] else acc) []
  (records, s.fieldnames)

/-- Python `str.zfill(w)`: left-pad with zeros to width `w`, keeping a
leading sign in place. -/
def pyZfill (w : ℕ) (s : String) : String :=
  let cs := s.toList
  if w ≤ cs.length then s
  else
    match cs with
    | c :: rest =>
      if c = '+' || c = '-' then
        String.mk (c :: (List.replicate (w - cs.length) '0' ++ rest))
      else String.mk (List.replicate (w - cs.length) '0' ++ cs)
    | [] => String.mk (List.replicate w '0')

/-- `rec.get("line_no") or ""`: the record's line number, with falsy
values collapsing to the empty string.  In the pipeline `line_no` is
always a string; a numeric value here would make the source's
`.zfill(3)` raise, a case no caller reaches. -/
def lineNoOrEmpty (r : List (String × PyVal)) : String :=
  match dictGet r "line_no" with
  | some (.str s) => s
  | _ => ""

/-- The label-attachment step from `main`:
`rec["label"] = label_map.get((rec.get("line_no") or "").zfill(3), "")`. -/
def attach_label (label_map : List (String × String))
    (r : List (String × PyVal)) : List (String × PyVal) :=
  let ln := pyZfill 3 (lineNoOrEmpty r)
  dictSet r "label" (.str ((dictGet label_map ln).getD ""))

/-- `d.get(k) or ""` as used by the sort key. -/
def strFieldOrEmpty (r : List (String × PyVal)) (k : String) : String :=
  match dictGet r k with
  | some (.str s) => s
  | _ => ""

/-- The sort key from `main`:
`(d.get("GEO_ID") or "", d.get("line_no") or "")`. -/
def sortKey (r : List (String × PyVal)) : String × String :=
  (strFieldOrEmpty r "GEO_ID", strFieldOrEmpty r "line_no")

/-- Python tuple comparison on two sort keys (non-strict lexicographic
order on pairs of strings). -/
def keyLe (a b : String × String) : Prop :=
  a.1 < b.1 ∨ (a.1 = b.1 ∧ a.2 ≤ b.2)

/-- Strict lexicographic order on sort keys. -/
def keyLt (a b : String × String) : Prop :=
  a.1 < b.1 ∨ (a.1 = b.1 ∧ a.2 < b.2)

instance (a b : String × String) : Decidable (keyLe a b) := by
  unfold keyLe; infer_instance

instance (a b : String × String) : Decidable (keyLt a b) := by
  unfold keyLt; infer_instance

/-- The record ordering used by the final sort: compare the sort keys. -/
def recordLe (r1 r2 : List (String × PyVal)) : Prop :=
  keyLe (sortKey r1) (sortKey r2)

instance (r1 r2 : List (String × PyVal)) : Decidable (recordLe r1 r2) := by
  unfold recordLe; infer_instance

instance : IsTrans (List (String × PyVal)) recordLe where
  trans a b c hab hbc := by
    unfold recordLe keyLe at hab hbc ⊢
    rcases hab with hab | ⟨hab, hab2⟩ <;> rcases hbc with hbc | ⟨hbc, hbc2⟩
    · exact Or.inl (lt_trans hab hbc)
    · exact Or.inl (hbc ▸ hab)
    · exact Or.inl (hab ▸ hbc)
    · exact Or.inr ⟨hab.trans hbc, le_trans hab2 hbc2⟩

instance : IsTotal (List (String × PyVal)) recordLe where
  total a b := by
    unfold recordLe keyLe
    rcases lt_trichotomy (sortKey a).1 (sortKey b).1 with h | h | h
    · exact Or.inl (Or.inl h)
    · rcases le_total (sortKey a).2 (sortKey b).2 with h2 | h2
      · exact Or.inl (Or.inr ⟨h, h2⟩)
      · exact Or.inr (Or.inr ⟨h.symm, h2⟩)
    · exact Or.inr (Or.inl h)

/-- `all_records.sort(key=lambda d: (d.get("GEO_ID") or "", d.get("line_no") or ""))`:
a stable ascending sort by the string-pair key (a stable structural sort
models CPython's stable `list.sort`). -/
def sortRecords (records : List (List (String × PyVal))) :
    List (List (String × PyVal)) :=
  List.insertionSort recordLe records

/-- The JSON payload shapes relevant to `fetch_group_subject`'s check. -/
inductive PyObj where
  | pylist (xs : List PyObj)
  | pystr (s : Option String)
  | other

/-- `isinstance(data, list) and data and isinstance(data[0], list)`. -/
def shapeOk : PyObj → Bool
  | .pylist (x :: _) => match x with | .pylist _ => true | _ => false
  | _ => false

/-- Outcome of one `session.get`/`raise_for_status`/`.json()` attempt:
an exception anywhere in that chain, or a decoded payload. -/
inductive NetResult where
  | exc
  | ok (data : PyObj)

/-- The retry loop of `fetch_group_subject`: `attempt` is the 0-based
attempt number, the last argument the attempts remaining.  Returns the
result (`Except.error` models the final `RuntimeError`, whose message is
modelled without the formatted last exception) and the list of
`time.sleep` durations in order; a failed attempt sleeps
`backoff * (attempt + 1)` before the next one. -/
def fetchAux (table tract : String) (net : ℕ → NetResult) (backoff : ℚ)
    (attempt : ℕ) : ℕ → Except String PyObj × List ℚ
  | 0 => (.error ("Failed to fetch " ++ table ++ " for tract " ++ tract), [])
  | remaining + 1 =>
    let failCont := fun (_ : Unit) =>
      let out := fetchAux table tract net backoff (attempt + 1) remaining
      (out.1, backoff * ((attempt : ℚ) + 1) :: out.2)
    match net attempt with
    | .ok d => if shapeOk d then (.ok d, []) else failCont ()
    | .exc => failCont ()

/-- `fetch_group_subject` (the source defaults are `retries=3`,
`backoff=0.8`; both are passed explicitly here). -/
def fetch_group_subject (table tract : String) (net : ℕ → NetResult)
    (retries : ℕ) (backoff : ℚ) : Except String PyObj × List ℚ :=
  fetchAux table tract net backoff 0 retries

/-- The (coordinate, position) pairs of the headers matching the table's
convention, in header order. -/
def matchedPairs (t : String) (hs : List String) :
    List ((String × String × String) × ℕ) :=
  hs.enum.filterMap (fun p => (matchHeader t p.2).map (fun k => (k, p.1)))

/-- The value attached to the last pair carrying key `k`, if any. -/
def lastVal {α β : Type} [DecidableEq α] : List (α × β) → α → Option β
  | [], _ => Option.none
  | e :: rest, k =>
    match lastVal rest k with
    | some v => some v
    | Option.none => if e.1 = k then some e.2 else Option.none

/-- The candidate record assembled for one discovered line number (the
body of the per-line loop of `build_records_for_row`). -/
def candidateRecord (table : String) (headers : List String)
    (row : List (Option String)) (ln : String) : List (String × PyVal) :=
  (resolveSchema table).builder (row_ids headers row).1 (row_ids headers row).2
    ln (getv (parse_headers_for_table table headers) row)

/-- One fetch attempt fails: the request chain raised, or the payload
failed the shape check. -/
def attemptFails (net : ℕ → NetResult) (i : ℕ) : Prop :=
  match net i with
  | .ok d => shapeOk d = false
  | .exc => True

/-! ### Helper lemmas -/

theorem dictGet_dictSet_self {α β : Type} [DecidableEq α]
    (m : List (α × β)) (k : α) (v : β) : dictGet (dictSet m k v) k = some v := by
  induction m with
  | nil => simp [dictSet, dictGet]
  | cons e rest ih =>
    obtain ⟨k0, v0⟩ := e
    by_cases h : k0 = k
    · simp [dictSet, dictGet, h]
    · simp [dictSet, dictGet, h, ih]

theorem dictGet_dictSet_other {α β : Type} [DecidableEq α]
    (m : List (α × β)) (k k' : α) (v : β) (hne : k' ≠ k) :
    dictGet (dictSet m k v) k' = dictGet m k' := by
  have hkk : ¬ k = k' := fun h => hne h.symm
  induction m with
  | nil => simp [dictSet, dictGet, hkk]
  | cons e rest ih =>
    obtain ⟨k0, v0⟩ := e
    by_cases h : k0 = k
    · subst h
      simp [dictSet, dictGet, hkk]
    · simp [dictSet, dictGet, h, ih]

theorem foldl_match_eq_foldl_filterMap {α β γ : Type}
    (g : α → Option β) (step : γ → β → γ) :
    ∀ (l : List α) (m : γ),
      l.foldl (fun acc a =>
          match g a with | some b => step acc b | Option.none => acc) m
        = (l.filterMap g).foldl step m := by
  intro l
  induction l with
  | nil => intro m; rfl
  | cons a l ih =>
    intro m
    cases hg : g a <;> simp [List.filterMap_cons, hg, ih]

theorem parse_headers_eq_foldl (t : String) (hs : List String) :
    parse_headers_for_table t hs
      = (matchedPairs t hs).foldl (fun m e => dictSet m e.1 e.2) [] := by
  unfold parse_headers_for_table matchedPairs
  rw [← foldl_match_eq_foldl_filterMap
    (fun p : ℕ × String => (matchHeader t p.2).map (fun k => (k, p.1)))
    (fun m e => dictSet m e.1 e.2)]
  congr 1
  funext m p
  cases hg : matchHeader t p.2 <;> simp [hg]

theorem foldl_dictSet_lookup {α β : Type} [DecidableEq α] :
    ∀ (ps m : List (α × β)) (k : α),
      dictGet (ps.foldl (fun m e => dictSet m e.1 e.2) m) k
        = match lastVal ps k with
          | some v => some v
          | Option.none => dictGet m k := by
  intro ps
  induction ps with
  | nil => intro m k; rfl
  | cons e rest ih =>
    intro m k
    rw [List.foldl_cons, ih]
    cases hl : lastVal rest k with
    | some v => simp [lastVal, hl]
    | none =>
      by_cases hk : e.1 = k
      · subst hk
        simp [lastVal, hl, dictGet_dictSet_self]
      · simp [lastVal, hl, hk,
          dictGet_dictSet_other m e.1 k e.2 (fun hh => hk hh.symm)]

theorem lastVal_eq_none_iff {α β : Type} [DecidableEq α] :
    ∀ (ps : List (α × β)) (k : α),
      lastVal ps k = Option.none ↔ k ∉ ps.map Prod.fst := by
  intro ps k
  induction ps with
  | nil => simp [lastVal]
  | cons e rest ih =>
    cases hl : lastVal rest k with
    | some v =>
      have hk : k ∈ rest.map Prod.fst := by
        by_contra hc
        rw [ih.mpr hc] at hl
        exact Option.noConfusion hl
      simp [lastVal, hl, hk]
    | none =>
      have hk := ih.mp hl
      by_cases he : e.1 = k
      · simp [lastVal, hl, he]
      · simp [lastVal, hl, he, hk]
        exact fun hh => he hh.symm

theorem lastVal_eq_some_iff_mem {α β : Type} [DecidableEq α] :
    ∀ (ps : List (α × β)), (ps.map Prod.fst).Nodup →
      ∀ (k : α) (v : β), (lastVal ps k = some v ↔ (k, v) ∈ ps) := by
  intro ps
  induction ps with
  | nil => intro _ k v; simp [lastVal]
  | cons e rest ih =>
    intro hn k v
    rw [List.map_cons, List.nodup_cons] at hn
    cases hl : lastVal rest k with
    | some w =>
      have hmem : (k, w) ∈ rest := (ih hn.2 k w).mp hl
      have hkfst : k ∈ rest.map Prod.fst :=
        List.mem_map_of_mem Prod.fst hmem
      simp only [lastVal, hl]
      constructor
      · intro hv
        exact List.mem_cons_of_mem e (by
          have : w = v := by injection hv
          exact this ▸ hmem)
      · intro hv
        rcases List.mem_cons.mp hv with hv | hv
        · exfalso
          apply hn.1
          have : k = e.1 := by
            have := congrArg Prod.fst hv
            simpa using this
          exact this ▸ hkfst
        · have := (ih hn.2 k v).mpr hv
          rw [hl] at this
          exact this
    | none =>
      have hknot : k ∉ rest.map Prod.fst := (lastVal_eq_none_iff rest k).mp hl
      have hnotmem : (k, v) ∉ rest := fun hm =>
        hknot (List.mem_map_of_mem Prod.fst hm)
      simp only [lastVal, hl]
      by_cases he : e.1 = k
      · subst he
        constructor
        · intro hv
          have : e.2 = v := by
            simp at hv
            exact hv
          exact this ▸ List.mem_cons_self e rest
        · intro hv
          rcases List.mem_cons.mp hv with hv | hv
          · have hv2 : v = e.2 := by
              have := congrArg Prod.snd hv
              simpa using this
            simp [hv2]
          · exact absurd hv hnotmem
      · simp only [if_neg he]
        constructor
        · intro hv
          exact Option.noConfusion hv
        · intro hv
          rcases List.mem_cons.mp hv with hv | hv
          · exfalso
            apply he
            have := congrArg Prod.fst hv
            simpa using this.symm
          · exact absurd hv hnotmem

theorem dictGet_parse_headers (t : String) (hs : List String)
    (K : String × String × String) :
    dictGet (parse_headers_for_table t hs) K = lastVal (matchedPairs t hs) K := by
  rw [parse_headers_eq_foldl, foldl_dictSet_lookup]
  cases lastVal (matchedPairs t hs) K <;> rfl

theorem mem_matchedPairs (t : String) (hs : List String)
    (K : String × String × String) (i : ℕ) :
    (K, i) ∈ matchedPairs t hs ↔
      ∃ h, hs[i]? = some h ∧ matchHeader t h = some K := by
  unfold matchedPairs
  rw [List.mem_filterMap]
  constructor
  · rintro ⟨⟨j, h⟩, hmem, hg⟩
    rw [Option.map_eq_some'] at hg
    rcases hg with ⟨k0, hk0, heq⟩
    have hj : j = i := by
      have := congrArg Prod.snd heq
      simpa using this
    have hkK : k0 = K := by
      have := congrArg Prod.fst heq
      simpa using this
    subst hj
    subst hkK
    exact ⟨h, List.mk_mem_enum_iff_getElem?.mp hmem, hk0⟩
  · rintro ⟨h, hget, hmatch⟩
    exact ⟨(i, h), List.mk_mem_enum_iff_getElem?.mpr hget, by simp [hmatch]⟩

/-! ### C3, C4, C10: the value normalizer -/

/-- C3: `clean_num` is total (it is defined as a total Lean function) and
returns null for null input, for every input whose trimmed string is a
suppression sentinel or an annotation token, and for every input whose
trimmed string fails numeric parsing. -/
theorem clean_num_null_cases :
    clean_num Option.none = PyVal.none ∧
    (∀ s : String,
        SUPPRESS_CODES.contains (pyStrip s) = true ∨
          ANNOTATION_TOKENS.contains (pyStrip s) = true →
        clean_num (some s) = PyVal.none) ∧
    (∀ s : String, pyFloatFinite (pyStrip s) = Option.none →
        clean_num (some s) = PyVal.none) := by
  refine ⟨rfl, ?_, ?_⟩
  · intro s h
    have hc : (SUPPRESS_CODES.contains (pyStrip s)
        || ANNOTATION_TOKENS.contains (pyStrip s)) = true := by
      rcases h with h | h
      · rw [h, Bool.true_or]
      · rw [h, Bool.or_true]
    simp only [clean_num]
    rw [if_pos hc]
  · intro s h
    simp only [clean_num]
    by_cases hc : (SUPPRESS_CODES.contains (pyStrip s)
        || ANNOTATION_TOKENS.contains (pyStrip s)) = true
    · rw [if_pos hc]
    · rw [if_neg hc, h]

/-- Witness for C3 at concrete inputs: an annotation token with
surrounding whitespace, and a non-numeric string. -/
theorem clean_num_null_cases_witness :
    clean_num (some " (X) ") = PyVal.none ∧
    clean_num (some "abc") = PyVal.none :=
  ⟨clean_num_null_cases.2.1 " (X) " (Or.inr (by decide)),
   clean_num_null_cases.2.2 "abc" (by decide)⟩

/-- C4: on a numeric, non-sentinel, non-annotation string `clean_num`
returns the integer truncation when the parsed value is within `1e-9` of
it, and the parsed value otherwise; in particular "42", "42.0" and
"42.0000000001" give the integer 42 and "3.7" gives the float 3.7. -/
theorem clean_num_numeric :
    (∀ (s : String) (q : ℚ),
        SUPPRESS_CODES.contains (pyStrip s) = false →
        ANNOTATION_TOKENS.contains (pyStrip s) = false →
        pyFloatFinite (pyStrip s) = some q →
        clean_num (some s) =
          if |q - (pyTruncInt q : ℚ)| < 1 / 1000000000
          then PyVal.int (pyTruncInt q) else PyVal.float q) ∧
    clean_num (some "42") = PyVal.int 42 ∧
    clean_num (some "42.0") = PyVal.int 42 ∧
    clean_num (some "42.0000000001") = PyVal.int 42 ∧
    clean_num (some "3.7") = PyVal.float (37 / 10) := by
  refine ⟨?_, by decide, by decide,
    by decide, by decide⟩
  intro s q h1 h2 hq
  have hc : ¬ (SUPPRESS_CODES.contains (pyStrip s)
      || ANNOTATION_TOKENS.contains (pyStrip s)) = true := by
    rw [h1, h2]
    simp
  simp only [clean_num]
  rw [if_neg hc, hq]

/-- Witness for C4 at the concrete input "5.5". -/
theorem clean_num_numeric_witness :
    clean_num (some "5.5") =
      if |(11 / 2 : ℚ) - (pyTruncInt (11 / 2) : ℚ)| < 1 / 1000000000
      then PyVal.int (pyTruncInt (11 / 2)) else PyVal.float (11 / 2) :=
  clean_num_numeric.1 "5.5" (11 / 2) (by decide)
    (by decide) (by decide)

/-- C10: suppression sentinels are recognized only in the eight exact
textual forms of the fixed set: every element of that set maps to null,
while EVERY other textual rendering of one of the four sentinel values —
any string whose trimmed form is not among the eight yet parses to that
value, such as "-555555555.00" or "-5.55555555e8" — yields the parsed
large negative number (an integer, being within 1e-9 of itself) instead
of null. -/
theorem suppress_codes_exact_forms_only :
    (∀ s ∈ SUPPRESS_CODES, clean_num (some s) = PyVal.none) ∧
    (∀ (s : String) (n : ℤ),
        (n = -555555555 ∨ n = -888888888 ∨ n = -666666666 ∨ n = -222222222) →
        pyStrip s ∉ SUPPRESS_CODES →
        pyFloatFinite (pyStrip s) = some ((n : ℤ) : ℚ) →
        clean_num (some s) = PyVal.int n) ∧
    clean_num (some "-555555555.00") = PyVal.int (-555555555) ∧
    clean_num (some "-5.55555555e8") = PyVal.int (-555555555) := by
  refine ⟨by decide, ?_, by decide, by decide⟩
  intro s n hn hsup hq
  have hann : ANNOTATION_TOKENS.contains (pyStrip s) = false := by
    by_cases hmem : pyStrip s ∈ ANNOTATION_TOKENS
    · exfalso
      have hnone : pyFloatFinite (pyStrip s) = Option.none := by
        simp only [ANNOTATION_TOKENS, List.mem_cons, List.not_mem_nil,
          or_false] at hmem
        rcases hmem with h | h | h | h | h <;> rw [h] <;> decide
      rw [hnone] at hq
      exact Option.noConfusion hq
    · simpa using hmem
  have hsupb : SUPPRESS_CODES.contains (pyStrip s) = false := by
    simpa using hsup
  have hcc : ¬ (SUPPRESS_CODES.contains (pyStrip s)
      || ANNOTATION_TOKENS.contains (pyStrip s)) = true := by
    rw [hsupb, hann]
    simp
  have htr : pyTruncInt ((n : ℤ) : ℚ) = n := by
    unfold pyTruncInt
    rw [Rat.num_intCast, Rat.den_intCast]
    exact Int.tdiv_one n
  have habs : |((n : ℤ) : ℚ) - ((pyTruncInt ((n : ℤ) : ℚ)) : ℚ)|
      < 1 / 1000000000 := by
    rw [htr, sub_self, abs_zero]
    norm_num
  simp only [clean_num]
  rw [if_neg hcc, hq]
  show (if |((n : ℤ) : ℚ) - ((pyTruncInt ((n : ℤ) : ℚ)) : ℚ)| < 1 / 1000000000
      then PyVal.int (pyTruncInt ((n : ℤ) : ℚ))
      else PyVal.float ((n : ℤ) : ℚ)) = PyVal.int n
  rw [if_pos habs, htr]

/-- Witness for C10: the first sentinel string maps to null, and the
non-set rendering "-555555555.00" of the value -555555555 maps to the
parsed integer, through the universal part of the theorem. -/
theorem suppress_codes_exact_forms_only_witness :
    clean_num (some "-555555555") = PyVal.none ∧
    clean_num (some "-555555555.00") = PyVal.int (-555555555) :=
  ⟨suppress_codes_exact_forms_only.1 "-555555555" (by decide),
   suppress_codes_exact_forms_only.2.1 "-555555555.00" (-555555555)
     (Or.inl rfl) (by decide) (by decide)⟩

/-! ### C2: the header decoder -/

/-- C2 fails as stated on a header list in which two headers match with
the same coordinate: the map cannot send both headers' coordinates to
their own positions.  With table "S0101" and the header "S0101_C01_001E"
duplicated at positions 0 and 1, the header at position 0 matches the
convention with coordinate ("01","001","E"), yet the decoded map sends
that coordinate to position 1, not 0 (last write wins). -/
theorem parse_headers_duplicate_counterexample :
    matchHeader "S0101" "S0101_C01_001E" = some ("01", "001", "E") ∧
    dictGet (parse_headers_for_table "S0101" ["S0101_C01_001E", "S0101_C01_001E"])
        ("01", "001", "E") = some 1 ∧
    dictGet (parse_headers_for_table "S0101" ["S0101_C01_001E", "S0101_C01_001E"])
        ("01", "001", "E") ≠ some 0 := by
  refine ⟨by decide, by decide, by decide⟩

/-- C2 amended: when the matching headers' coordinates are pairwise
distinct, the decoded map sends a coordinate to a position exactly when
the header at that position matches the convention with that coordinate
(so each matching header contributes the entry keyed by its coordinate);
with duplicated coordinates the last matching position wins.
Unconditionally, a coordinate is absent from the map exactly when no
header matches with it (non-matching headers are ignored), and the
concrete example decodes to exactly the two stated entries. -/
theorem parse_headers_amended :
    (∀ (t : String) (hs : List String) (K : String × String × String) (i : ℕ),
        ((matchedPairs t hs).map Prod.fst).Nodup →
        (dictGet (parse_headers_for_table t hs) K = some i ↔
          ∃ h, hs[i]? = some h ∧ matchHeader t h = some K)) ∧
    (∀ (t : String) (hs : List String) (K : String × String × String),
        dictGet (parse_headers_for_table t hs) K = Option.none ↔
          ∀ (i : ℕ) (h : String), hs[i]? = some h → matchHeader t h ≠ some K) ∧
    parse_headers_for_table "S0101" ["S0101_C01_001E", "S0101_C01_001M", "UNRELATED"]
      = [(("01", "001", "E"), 0), (("01", "001", "M"), 1)] := by
  refine ⟨?_, ?_, by decide⟩
  · intro t hs K i hn
    rw [dictGet_parse_headers, lastVal_eq_some_iff_mem _ hn, mem_matchedPairs]
  · intro t hs K
    rw [dictGet_parse_headers, lastVal_eq_none_iff]
    constructor
    · intro hnot i h hget hmatch
      apply hnot
      have : (K, i) ∈ matchedPairs t hs :=
        (mem_matchedPairs t hs K i).mpr ⟨h, hget, hmatch⟩
      exact List.mem_map_of_mem Prod.fst this
    · intro hall hmem
      rcases List.mem_map.mp hmem with ⟨⟨K0, i⟩, hmem0, hfst⟩
      have hK : K0 = K := hfst
      subst hK
      rcases (mem_matchedPairs t hs K0 i).mp hmem0 with ⟨h, hget, hmatch⟩
      exact hall i h hget hmatch

/-- Witness for C2 (amended) at concrete inputs: a single matching
header decodes to its own position, and a single non-matching header
yields no entry. -/
theorem parse_headers_amended_witness :
    dictGet (parse_headers_for_table "S0101" ["S0101_C01_001E"]) ("01", "001", "E")
        = some 0 ∧
    dictGet (parse_headers_for_table "S0101" ["UNRELATED"]) ("01", "001", "E")
        = Option.none :=
  ⟨(parse_headers_amended.1 "S0101" ["S0101_C01_001E"] ("01", "001", "E") 0
      (by decide)).mpr ⟨"S0101_C01_001E", by decide, by decide⟩,
   (parse_headers_amended.2.1 "S0101" ["UNRELATED"] ("01", "001", "E")).mpr
      (by
        intro i h hget
        cases i with
        | zero =>
          have hh : "UNRELATED" = h := by simpa using hget
          subst hh
          decide
        | succ n => simp at hget)⟩

/-! ### C7, C8, C5: label merger, record shape, schema fallback -/

theorem builder_core_fields (t : String) (geo name : Option String) (ln : String)
    (g : String → String → String → PyVal) :
    ((resolveSchema t).builder geo name ln g).map Prod.fst
        = (resolveSchema t).fieldnames.erase "label" ∧
    dictGet ((resolveSchema t).builder geo name ln g) "GEO_ID" = some (optStr geo) ∧
    dictGet ((resolveSchema t).builder geo name ln g) "NAME" = some (optStr name) ∧
    dictGet ((resolveSchema t).builder geo name ln g) "line_no" = some (PyVal.str ln) ∧
    dictGet ((resolveSchema t).builder geo name ln g) "label" = Option.none := by
  unfold resolveSchema
  simp only [TABLE_SCHEMAS, dictGet]
  split_ifs <;>
    refine ⟨rfl, rfl, rfl, rfl, rfl⟩

/-- C7: the label-attachment step sets the record's label field to the
label-map entry at the record's line number zero-padded to three digits
(empty string when absent) and leaves every other field unchanged; a
record with line_no "1" gets the label keyed "001". -/
theorem attach_label_spec :
    (∀ (lm : List (String × String)) (r : List (String × PyVal)),
        dictGet (attach_label lm r) "label" =
          some (PyVal.str ((dictGet lm (pyZfill 3 (lineNoOrEmpty r))).getD ""))) ∧
    (∀ (lm : List (String × String)) (r : List (String × PyVal)) (k : String),
        k ≠ "label" → dictGet (attach_label lm r) k = dictGet r k) ∧
    dictGet (attach_label [("001", "Total")] [("line_no", PyVal.str "1")]) "label"
      = some (PyVal.str "Total") := by
  refine ⟨?_, ?_, by decide⟩
  · intro lm r
    unfold attach_label
    exact dictGet_dictSet_self r "label" _
  · intro lm r k hk
    unfold attach_label
    exact dictGet_dictSet_other r "label" k _ hk

/-- Witness for C7 at a concrete record: a field other than label is
untouched by the label-attachment step. -/
theorem attach_label_spec_witness :
    dictGet (attach_label [] [("line_no", PyVal.str "1")]) "line_no"
      = dictGet [("line_no", PyVal.str "1")] "line_no" :=
  attach_label_spec.2.1 [] [("line_no", PyVal.str "1")] "line_no" (by decide)

/-- C8 fails as stated: the record the assembler produces for an
unregistered table with one populated line has no "label" key at all —
the label field is only created later by the label-attachment step.  The
map over the produced records of their "label" lookups is `[none]`:
exactly one record, and its label field is absent. -/
theorem record_label_absent_counterexample :
    ((build_records_for_row "S9999" ["GEO_ID", "NAME", "S9999_C01_001E"]
        [some "g", some "n", some "5"]).1.map (fun r => dictGet r "label"))
      = [Option.none] := by decide

/-- C8 amended: every record the assembler produces contains GEO_ID,
NAME and line_no plus exactly the active schema's numeric fields (its
fieldname list without "label", in order); the label field is absent
until the label-attachment step adds it, and that step sets exactly the
one field "label", leaving every other field unchanged. -/
theorem record_fields_amended :
    (∀ (t : String) (geo name : Option String) (ln : String)
        (g : String → String → String → PyVal),
        ((resolveSchema t).builder geo name ln g).map Prod.fst
            = (resolveSchema t).fieldnames.erase "label" ∧
        dictGet ((resolveSchema t).builder geo name ln g) "GEO_ID"
            = some (optStr geo) ∧
        dictGet ((resolveSchema t).builder geo name ln g) "NAME"
            = some (optStr name) ∧
        dictGet ((resolveSchema t).builder geo name ln g) "line_no"
            = some (PyVal.str ln) ∧
        dictGet ((resolveSchema t).builder geo name ln g) "label"
            = Option.none) ∧
    (∀ (lm : List (String × String)) (r : List (String × PyVal)),
        (dictGet (attach_label lm r) "label" ≠ Option.none) ∧
        ∀ k : String, k ≠ "label" →
          dictGet (attach_label lm r) k = dictGet r k) := by
  refine ⟨builder_core_fields, ?_⟩
  intro lm r
  constructor
  · unfold attach_label
    rw [dictGet_dictSet_self]
    exact fun h => Option.noConfusion h
  · intro k hk
    unfold attach_label
    exact dictGet_dictSet_other r "label" k _ hk

/-- Witness for C8 (amended) at a concrete schema and record. -/
theorem record_fields_amended_witness :
    ((resolveSchema "S9999").builder (some "g") (some "n") "001"
        (fun _ _ _ => PyVal.none)).map Prod.fst
      = (resolveSchema "S9999").fieldnames.erase "label" ∧
    dictGet (attach_label [] [("GEO_ID", PyVal.str "g")]) "GEO_ID"
      = dictGet [("GEO_ID", PyVal.str "g")] "GEO_ID" :=
  ⟨(record_fields_amended.1 "S9999" (some "g") (some "n") "001"
      (fun _ _ _ => PyVal.none)).1,
   (record_fields_amended.2 [] [("GEO_ID", PyVal.str "g")]).2 "GEO_ID" (by decide)⟩

/-- C5: a table id absent from the registry resolves (resolution is a
total function, never an error) to the default schema; the assembler
then returns exactly `DEFAULT_FIELDNAMES` — which is literally the
claimed 16-name list, in order — and builds records with
`default_builder`, which reads groups "01" through "06" for kinds E and
M. -/
theorem default_schema_fallback :
    (∀ t : String, dictGet TABLE_SCHEMAS t = Option.none →
        resolveSchema t = ⟨DEFAULT_FIELDNAMES, default_builder⟩) ∧
    (∀ (t : String) (hs : List String) (row : List (Option String)),
        dictGet TABLE_SCHEMAS t = Option.none →
        (build_records_for_row t hs row).2 = DEFAULT_FIELDNAMES) ∧
    DEFAULT_FIELDNAMES =
      ["GEO_ID", "NAME", "line_no", "label",
       "total", "total_moe", "total_pct", "total_pct_moe",
       "male", "male_moe", "male_pct", "male_pct_moe",
       "female", "female_moe", "female_pct", "female_pct_moe"] ∧
    (∀ (geo name : Option String) (ln : String)
        (g : String → String → String → PyVal),
        default_builder geo name ln g =
          [("GEO_ID", optStr geo), ("NAME", optStr name), ("line_no", PyVal.str ln),
           ("total", g "01" "E" ln), ("total_moe", g "01" "M" ln),
           ("total_pct", g "02" "E" ln), ("total_pct_moe", g "02" "M" ln),
           ("male", g "03" "E" ln), ("male_moe", g "03" "M" ln),
           ("male_pct", g "04" "E" ln), ("male_pct_moe", g "04" "M" ln),
           ("female", g "05" "E" ln), ("female_moe", g "05" "M" ln),
           ("female_pct", g "06" "E" ln), ("female_pct_moe", g "06" "M" ln)]) := by
  refine ⟨?_, ?_, rfl, fun _ _ _ _ => rfl⟩
  · intro t ht
    unfold resolveSchema
    rw [ht]
  · intro t hs row ht
    show (resolveSchema t).fieldnames = DEFAULT_FIELDNAMES
    unfold resolveSchema
    rw [ht]

/-- Witness for C5 at the unregistered table id "S9999". -/
theorem default_schema_fallback_witness :
    resolveSchema "S9999" = ⟨DEFAULT_FIELDNAMES, default_builder⟩ ∧
    (build_records_for_row "S9999" [] []).2 = DEFAULT_FIELDNAMES :=
  ⟨default_schema_fallback.1 "S9999" rfl,
   default_schema_fallback.2.1 "S9999" [] [] rfl⟩

/-! ### C6: the output sort -/

/-- C6: the final sort orders the concatenated record list ascending by
the (GEO_ID, line_no) pair compared as strings: the output is pairwise
ordered under that key and is a permutation of the input; moreover the
key ("A","002") strictly precedes ("A","010"), and any key with GEO_ID
"A" strictly precedes any key with GEO_ID "B" whatever the line
numbers. -/
theorem sort_records_ordering :
    (∀ records : List (List (String × PyVal)),
        (sortRecords records).Sorted recordLe ∧
          List.Perm (sortRecords records) records) ∧
    keyLt ("A", "002") ("A", "010") ∧
    (∀ ln1 ln2 : String, keyLt ("A", ln1) ("B", ln2)) := by
  refine ⟨?_, ?_, ?_⟩
  · intro records
    exact ⟨List.sorted_insertionSort recordLe records,
           List.perm_insertionSort recordLe records⟩
  · exact Or.inr ⟨rfl, by decide⟩
  · intro ln1 ln2
    have h : ("A" : String) < "B" := by decide
    exact Or.inl h

/-! ### C1: the keep filter of the record assembler -/

theorem keepRecord_iff (r : List (String × PyVal)) :
    keepRecord r = true ↔
      ∃ kv ∈ r, kv.1 ∉ IDENT_KEYS ∧ kv.2 ≠ PyVal.none := by
  unfold keepRecord
  simp [List.any_eq_true]

theorem mem_foldl_keep {α β : Type} (f : α → β) (p : β → Bool) :
    ∀ (l : List α) (acc : List β) (b : β),
      (b ∈ l.foldl (fun acc a => if p (f a) then acc ++ [f a] else acc) acc ↔
        b ∈ acc ∨ ∃ a ∈ l, b = f a ∧ p b = true) := by
  intro l
  induction l with
  | nil => intro acc b; simp
  | cons a l ih =>
    intro acc b
    rw [List.foldl_cons]
    by_cases hp : p (f a) = true
    · rw [if_pos hp, ih]
      constructor
      · rintro (h | ⟨a2, ha2, hb, hpb⟩)
        · rcases List.mem_append.mp h with h | h
          · exact Or.inl h
          · have hb : b = f a := List.mem_singleton.mp h
            exact Or.inr ⟨a, List.mem_cons_self a l, hb, hb ▸ hp⟩
        · exact Or.inr ⟨a2, List.mem_cons_of_mem a ha2, hb, hpb⟩
      · rintro (h | ⟨a2, ha2, hb, hpb⟩)
        · exact Or.inl (List.mem_append.mpr (Or.inl h))
        · rcases List.mem_cons.mp ha2 with rfl | ha2
          · exact Or.inl (List.mem_append.mpr (Or.inr (List.mem_singleton.mpr hb)))
          · exact Or.inr ⟨a2, ha2, hb, hpb⟩
    · rw [if_neg hp, ih]
      constructor
      · rintro (h | ⟨a2, ha2, hb, hpb⟩)
        · exact Or.inl h
        · exact Or.inr ⟨a2, List.mem_cons_of_mem a ha2, hb, hpb⟩
      · rintro (h | ⟨a2, ha2, hb, hpb⟩)
        · exact Or.inl h
        · rcases List.mem_cons.mp ha2 with rfl | ha2
          · exact absurd (hb ▸ hpb) hp
          · exact Or.inr ⟨a2, ha2, hb, hpb⟩

theorem build_records_fst (t : String) (hs : List String)
    (row : List (Option String)) :
    (build_records_for_row t hs row).1
      = (discoveredLines (parse_headers_for_table t hs)).foldl
          (fun acc ln =>
            if keepRecord (candidateRecord t hs row ln)
            then acc ++ [candidateRecord t hs row ln] else acc) [] := rfl

/-- C1: for every table id, header list and row, the candidate record
built for a discovered line number is retained exactly when at least one
of its fields other than GEO_ID, NAME, line_no and label is non-null.
On the concrete unregistered-table row the discovered lines are "001"
and "002"; line "001" (only group 01 kind E populated, value "5") yields
exactly one record with total = 5 and every other numeric field null,
while line "002" (whose only value "-" decodes to null) contributes no
record. -/
theorem keep_filter_spec :
    (∀ (t : String) (hs : List String) (row : List (Option String)) (ln : String),
        ln ∈ discoveredLines (parse_headers_for_table t hs) →
        (candidateRecord t hs row ln ∈ (build_records_for_row t hs row).1 ↔
          ∃ kv ∈ candidateRecord t hs row ln,
            kv.1 ∉ IDENT_KEYS ∧ kv.2 ≠ PyVal.none)) ∧
    discoveredLines (parse_headers_for_table "S9999"
        ["GEO_ID", "NAME", "S9999_C01_001E", "S9999_C01_002E"]) = ["001", "002"] ∧
    (build_records_for_row "S9999"
        ["GEO_ID", "NAME", "S9999_C01_001E", "S9999_C01_002E"]
        [some "g", some "n", some "5", some "-"]).1
      = [[("GEO_ID", PyVal.str "g"), ("NAME", PyVal.str "n"),
          ("line_no", PyVal.str "001"),
          ("total", PyVal.int 5), ("total_moe", PyVal.none),
          ("total_pct", PyVal.none), ("total_pct_moe", PyVal.none),
          ("male", PyVal.none), ("male_moe", PyVal.none),
          ("male_pct", PyVal.none), ("male_pct_moe", PyVal.none),
          ("female", PyVal.none), ("female_moe", PyVal.none),
          ("female_pct", PyVal.none), ("female_pct_moe", PyVal.none)]] := by
  refine ⟨?_, by decide, by decide⟩
  intro t hs row ln hln
  rw [build_records_fst, mem_foldl_keep (candidateRecord t hs row) keepRecord]
  simp only [List.not_mem_nil, false_or]
  constructor
  · rintro ⟨ln2, hln2, hb, hkeep⟩
    exact (keepRecord_iff _).mp hkeep
  · intro hex
    exact ⟨ln, hln, rfl, (keepRecord_iff _).mpr hex⟩

/-- Witness for C1: the concrete candidate for line "001" is retained. -/
theorem keep_filter_spec_witness :
    candidateRecord "S9999" ["GEO_ID", "NAME", "S9999_C01_001E", "S9999_C01_002E"]
        [some "g", some "n", some "5", some "-"] "001"
      ∈ (build_records_for_row "S9999"
          ["GEO_ID", "NAME", "S9999_C01_001E", "S9999_C01_002E"]
          [some "g", some "n", some "5", some "-"]).1 :=
  (keep_filter_spec.1 "S9999" ["GEO_ID", "NAME", "S9999_C01_001E", "S9999_C01_002E"]
      [some "g", some "n", some "5", some "-"] "001" (by decide)).mpr (by decide)

/-! ### C9: fetch retry behavior -/

theorem fetchAux_succ_exc (table tract : String) (net : ℕ → NetResult) (b : ℚ)
    (attempt n : ℕ) (hnet : net attempt = .exc) :
    fetchAux table tract net b attempt (n + 1)
      = ((fetchAux table tract net b (attempt + 1) n).1,
         b * ((attempt : ℚ) + 1) :: (fetchAux table tract net b (attempt + 1) n).2) := by
  simp only [fetchAux]
  rw [hnet]

theorem fetchAux_succ_badshape (table tract : String) (net : ℕ → NetResult)
    (b : ℚ) (attempt n : ℕ) (d : PyObj) (hnet : net attempt = .ok d)
    (hd : shapeOk d = false) :
    fetchAux table tract net b attempt (n + 1)
      = ((fetchAux table tract net b (attempt + 1) n).1,
         b * ((attempt : ℚ) + 1) :: (fetchAux table tract net b (attempt + 1) n).2) := by
  simp only [fetchAux]
  rw [hnet]
  show (if shapeOk d = true
      then (Except.ok d, ([] : List ℚ))
      else ((fetchAux table tract net b (attempt + 1) n).1,
            b * ((attempt : ℚ) + 1)
              :: (fetchAux table tract net b (attempt + 1) n).2)) = _
  rw [hd]
  simp

theorem fetchAux_all_fail (table tract : String) (net : ℕ → NetResult) (b : ℚ) :
    ∀ (remaining attempt : ℕ),
      (∀ i, attempt ≤ i → i < attempt + remaining → attemptFails net i) →
      fetchAux table tract net b attempt remaining
        = (.error ("Failed to fetch " ++ table ++ " for tract " ++ tract),
           (List.range remaining).map
             (fun j : ℕ => b * ((attempt : ℚ) + (j : ℚ) + 1))) := by
  intro remaining
  induction remaining with
  | zero => intro attempt _; rfl
  | succ n ih =>
    intro attempt hfail
    have h0 : attemptFails net attempt := hfail attempt le_rfl (by omega)
    have hrec := ih (attempt + 1) (fun i h1 h2 => hfail i (by omega) (by omega))
    unfold attemptFails at h0
    have hstep : fetchAux table tract net b attempt (n + 1)
        = ((fetchAux table tract net b (attempt + 1) n).1,
           b * ((attempt : ℚ) + 1)
             :: (fetchAux table tract net b (attempt + 1) n).2) := by
      cases hnet : net attempt with
      | exc => exact fetchAux_succ_exc table tract net b attempt n hnet
      | ok d =>
        rw [hnet] at h0
        exact fetchAux_succ_badshape table tract net b attempt n d hnet h0
    rw [hstep, hrec]
    refine Prod.ext rfl ?_
    show b * ((attempt : ℚ) + 1)
        :: (List.range n).map
          (fun j : ℕ => b * (((attempt + 1 : ℕ) : ℚ) + (j : ℚ) + 1))
      = (List.range (n + 1)).map
          (fun j : ℕ => b * ((attempt : ℚ) + (j : ℚ) + 1))
    rw [List.range_succ_eq_map, List.map_cons, List.map_map]
    refine List.cons_eq_cons.mpr ⟨by norm_num, ?_⟩
    apply List.map_congr_left
    intro j _
    simp only [Function.comp_apply, Nat.succ_eq_add_one]
    push_cast
    ring

theorem fetchAux_first_ok (table tract : String) (net : ℕ → NetResult) (b : ℚ)
    (remaining attempt : ℕ) (d : PyObj) (hnet : net attempt = .ok d)
    (hshape : shapeOk d = true) :
    fetchAux table tract net b attempt (remaining + 1) = (.ok d, []) := by
  unfold fetchAux
  rw [hnet]
  simp [hshape]

/-- C9: with the fixed retry count 3, three consecutive failed attempts
(exception or shape check failure) are each followed by a sleep of
`backoff * attempt_number` (attempt numbers 1, 2, 3), after which the
function raises the fatal "Failed to fetch ..." error instead of
returning; a successful first attempt returns the payload at once with
no sleeps. -/
theorem fetch_retry_spec :
    (∀ (table tract : String) (net : ℕ → NetResult) (b : ℚ),
        (∀ i, i < 3 → attemptFails net i) →
        fetch_group_subject table tract net 3 b
          = (.error ("Failed to fetch " ++ table ++ " for tract " ++ tract),
             [b * 1, b * 2, b * 3])) ∧
    (∀ (table tract : String) (net : ℕ → NetResult) (b : ℚ) (d : PyObj),
        net 0 = .ok d → shapeOk d = true →
        fetch_group_subject table tract net 3 b = (.ok d, [])) := by
  constructor
  · intro table tract net b hfail
    unfold fetch_group_subject
    rw [fetchAux_all_fail table tract net b 3 0 (fun i _ h2 => hfail i (by omega))]
    refine Prod.ext rfl ?_
    rw [show List.range 3 = [0, 1, 2] from rfl]
    simp only [List.map_cons, List.map_nil]
    norm_num
  · intro table tract net b d hnet hshape
    unfold fetch_group_subject
    exact fetchAux_first_ok table tract net b 2 0 d hnet hshape

/-- Witness for C9: a session whose every attempt raises exhausts the
three retries and raises, and a session whose first attempt returns a
well-shaped payload succeeds immediately. -/
theorem fetch_retry_spec_witness :
    fetch_group_subject "S0101" "48021950801" (fun _ => NetResult.exc) 3 (4 / 5)
      = (.error ("Failed to fetch " ++ "S0101" ++ " for tract " ++ "48021950801"),
         [4 / 5 * 1, 4 / 5 * 2, 4 / 5 * 3]) ∧
    fetch_group_subject "S0101" "48021950801"
        (fun _ => NetResult.ok (PyObj.pylist [PyObj.pylist []])) 3 (4 / 5)
      = (.ok (PyObj.pylist [PyObj.pylist []]), []) :=
  ⟨fetch_retry_spec.1 "S0101" "48021950801" (fun _ => NetResult.exc) (4 / 5)
      (fun _ _ => trivial),
   fetch_retry_spec.2 "S0101" "48021950801"
      (fun _ => NetResult.ok (PyObj.pylist [PyObj.pylist []])) (4 / 5)
      (PyObj.pylist [PyObj.pylist []]) rfl rfl⟩

end FetchTables
